import Mathlib

set_option linter.unusedVariables false

/-!
Verification development for the erlotinib hierarchical likelihood and
predictive-sampling core.

The Lean definitions below are a shallow embedding of the Python code in
`erlotinib/_population_models.py` (population models) together with
spec-modelled definitions for the parameter-reduction wrapper and the
predictive-sampling pipeline, whose implementation files are not part of
the available sources.  Machine floats are modelled as real numbers; the
value `-inf` returned by a log-density outside its support is modelled as
the bottom element of `EReal`.  A Python method that can raise is embedded
either as an `Except`-valued function (when it mutates nothing) or as a
function returning the pair of the final object state and an optional
raised error (mirroring the order of statements in the method body: the
state component differs from the input state only when an assignment was
executed before any raise).
-/

/-- Kinds of Python exceptions raised by the embedded code.  `valueError`
carries the message of a Python `ValueError`; `notImplementedError` models
`NotImplementedError` raised by abstract base-class methods. -/
inductive PyError where
  | valueError (msg : String)
  | notImplementedError
deriving DecidableEq

/-- Returns `true` exactly when the error is a Python `ValueError`, the
exception class used by this code base for invalid-argument errors. -/
def PyError.isValueError : PyError → Bool
  | .valueError _ => true
  | .notImplementedError => false

/-- Returns `true` exactly when an `Except` value models a raised Python
exception. -/
def Except.isError : Except PyError β → Bool
  | .error _ => true
  | .ok _ => false

/-- Instance state shared by every population model.  The fields mirror the
instance attributes written by `PopulationModel.__init__` and by the
variant constructors `HeterogeneousModel.__init__`,
`LogNormalModel.__init__` and `PooledModel.__init__` in
`erlotinib/_population_models.py`: each variant stores its own
`_n_bottom_parameters`, `_n_top_parameters`, `_n_parameters` and
`_top_parameter_names` on top of the base attributes `_n_ids`, `_ids` and
`_bottom_parameter_name`. -/
structure PopulationModel where
  n_ids : ℕ
  ids : Option (List String)
  bottom_parameter_name : String
  n_bottom_parameters : ℕ
  n_top_parameters : ℕ
  n_parameters : ℕ
  top_parameter_names : Option (List String)

/-- Embedding of `HeterogeneousModel.__init__(n_ids)`: the base class sets
`_ids = None` and `_bottom_parameter_name = 'Bottom param'`; the variant
sets `_n_bottom_parameters = n_ids`, `_n_top_parameters = 0`,
`_n_parameters = _n_bottom_parameters + _n_top_parameters` and
`_top_parameter_names = None`. -/
def HeterogeneousModel.init (n_ids : ℕ) : PopulationModel :=
  { n_ids := n_ids
    ids := none
    bottom_parameter_name := "Bottom param"
    n_bottom_parameters := n_ids
    n_top_parameters := 0
    n_parameters := n_ids + 0
    top_parameter_names := none }

/-- Embedding of `LogNormalModel.__init__(n_ids)`: `_n_bottom_parameters =
n_ids`, `_n_top_parameters = 2`, `_n_parameters` their sum, and default
top-level parameter names `['Mean', 'Std.']`. -/
def LogNormalModel.init (n_ids : ℕ) : PopulationModel :=
  { n_ids := n_ids
    ids := none
    bottom_parameter_name := "Bottom param"
    n_bottom_parameters := n_ids
    n_top_parameters := 2
    n_parameters := n_ids + 2
    top_parameter_names := some ["Mean", "Std."] }

/-- Embedding of `PooledModel.__init__(n_ids)`: `_n_bottom_parameters = 0`,
`_n_top_parameters = 1`, `_n_parameters` their sum, and default top-level
parameter names `['Pooled']`. -/
def PooledModel.init (n_ids : ℕ) : PopulationModel :=
  { n_ids := n_ids
    ids := none
    bottom_parameter_name := "Bottom param"
    n_bottom_parameters := 0
    n_top_parameters := 1
    n_parameters := 0 + 1
    top_parameter_names := some ["Pooled"] }

/-- Embedding of the getter `PopulationModel.get_ids`. -/
def PopulationModel.get_ids (s : PopulationModel) : Option (List String) :=
  s.ids

/-- Embedding of the getter `get_top_parameter_names`, which each variant
implements by returning `self._top_parameter_names`. -/
def PopulationModel.get_top_parameter_names (s : PopulationModel) :
    Option (List String) :=
  s.top_parameter_names

/-- Embedding of `PopulationModel.set_ids(ids)`.  The method first raises a
`ValueError` when `len(ids) != self._n_ids` and only then assigns
`self._ids = [str(label) for label in ids]`.  The function `toStr` models
the Python `str` conversion applied to each label; the result pairs the
final state with the raised error, if any. -/
def PopulationModel.set_ids (s : PopulationModel) (ids : List α)
    (toStr : α → String) : PopulationModel × Option PyError :=
  if ids.length ≠ s.n_ids then
    (s, some (.valueError "Length of IDs does not match n_ids."))
  else
    ({ s with ids := some (ids.map toStr) }, none)

/-- Embedding of `PopulationModel.set_bottom_parameter_name(name)`:
assigns `self._bottom_parameter_name = str(name)` and never raises. -/
def PopulationModel.set_bottom_parameter_name (s : PopulationModel)
    (name : String) : PopulationModel :=
  { s with bottom_parameter_name := name }

/-- Embedding of `HeterogeneousModel.set_top_parameter_names(names)`: the
method body is a single unconditional `raise ValueError(...)`, so the state
is returned unchanged together with the error. -/
def HeterogeneousModel.set_top_parameter_names (s : PopulationModel)
    (names : List String) : PopulationModel × Option PyError :=
  (s, some (.valueError
    "A heterogeneous population model has no top-level parameters."))

/-- Embedding of `LogNormalModel.set_top_parameter_names(names)`: raises a
`ValueError` when `len(names) != self._n_top_parameters`, else assigns
`self._top_parameter_names = [str(label) for label in names]`. -/
def LogNormalModel.set_top_parameter_names (s : PopulationModel)
    (names : List String) : PopulationModel × Option PyError :=
  if names.length ≠ s.n_top_parameters then
    (s, some (.valueError "Length of names does not match n_top_parameters."))
  else
    ({ s with top_parameter_names := some names }, none)

/-- Embedding of `PooledModel.set_top_parameter_names(names)`: textually
the same body as the log-normal variant. -/
def PooledModel.set_top_parameter_names (s : PopulationModel)
    (names : List String) : PopulationModel × Option PyError :=
  if names.length ≠ s.n_top_parameters then
    (s, some (.valueError "Length of names does not match n_top_parameters."))
  else
    ({ s with top_parameter_names := some names }, none)

/-- Embedding of the base-class method `PopulationModel.sample`, whose body
is `raise NotImplementedError`. -/
def PopulationModel.sample (s : PopulationModel) (top_parameters : List ℝ)
    (n : Option ℕ) : Except PyError (List ℝ) :=
  .error .notImplementedError

/-- `HeterogeneousModel` does not override `sample`, so calling it invokes
the inherited base-class method and raises `NotImplementedError`. -/
def HeterogeneousModel.sample (s : PopulationModel)
    (top_parameters : List ℝ) (n : Option ℕ) : Except PyError (List ℝ) :=
  PopulationModel.sample s top_parameters n

/-- Embedding of `numpy.broadcast_to(xs, shape=(n,))` for a one-dimensional
input array: broadcasting succeeds when the input length already equals `n`
or equals `1` (in which case the single element is replicated), and raises
otherwise. -/
def broadcast_to (xs : List ℝ) (n : ℕ) : Except PyError (List ℝ) :=
  if xs.length = n then .ok xs
  else if xs.length = 1 then .ok (List.replicate n (xs.headD 0))
  else .error (.valueError "input operand has incompatible shape")

/-- Embedding of `PooledModel.sample(top_parameters, n=None)`: raises a
`ValueError` when `len(top_parameters) != self._n_top_parameters`; then
`samples = np.asarray(top_parameters)` is returned as is when `n is None`,
and otherwise broadcast to shape `(n,)`. -/
def PooledModel.sample (s : PopulationModel) (top_parameters : List ℝ)
    (n : Option ℕ) : Except PyError (List ℝ) :=
  if top_parameters.length ≠ s.n_top_parameters then
    .error (.valueError
      "The number of provided parameters does not match the expected number of top-level parameters.")
  else
    match n with
    | none => .ok top_parameters
    | some k => broadcast_to top_parameters k

/-- Embedding of `LogNormalModel.sample(top_parameters, n=None)` exactly as
written in the source: the body consists of the length check only, so after
a successful check the method falls off the end and returns Python `None`,
modelled as `Except.ok none`. -/
def LogNormalModel.sample (s : PopulationModel) (top_parameters : List ℝ)
    (n : Option ℕ) : Except PyError (Option (List ℝ)) :=
  if top_parameters.length ≠ s.n_top_parameters then
    .error (.valueError
      "The number of provided parameters does not match the expected number of top-level parameters.")
  else
    .ok none

/-- Embedding of `HeterogeneousModel.__call__(parameters)`: the body is
`return 0` for every input. -/
def HeterogeneousModel.call (s : PopulationModel) (parameters : List ℝ) :
    ℝ :=
  0

/-- Embedding of `PooledModel.__call__(parameters)`: the body is
`return 0` for every input. -/
def PooledModel.call (s : PopulationModel) (parameters : List ℝ) : ℝ :=
  0

open Classical in
/-- Embedding of `LogNormalModel.__call__(parameters)`:
`log_psis = np.log(parameters[:n_ids])`, `(mean_log, std_log) =
parameters[n_ids:]` (the two entries following the bottom realisations),
`-inf` when `mean_log <= 0 or std_log <= 0`, else
`-n_ids * log(std_log) - sum(log_psis) - sum((log_psis - mean_log)**2) /
(2 * std_log**2)`. -/
noncomputable def LogNormalModel.call (s : PopulationModel)
    (parameters : List ℝ) : EReal :=
  let log_psis := (parameters.take s.n_ids).map Real.log
  let mean_log := parameters.getD s.n_ids 0
  let std_log := parameters.getD (s.n_ids + 1) 0
  if mean_log ≤ 0 ∨ std_log ≤ 0 then ⊥
  else
    (((-(s.n_ids : ℝ)) * Real.log std_log - log_psis.sum
      - ((log_psis.map fun x => (x - mean_log) ^ 2).sum)
        / (2 * std_log ^ 2) : ℝ) : EReal)

/-- Closed-form score stated by the specification for the log-normal
population model on a parameter vector whose first `n_ids` entries are the
bottom realisations `ps` and whose last two entries are `ml` and `sl`:
`-n_ids*log(sl) - sum(log ps) - sum((log ps - ml)^2) / (2*sl^2)`. -/
noncomputable def specLogNormalScore (n_ids : ℕ) (ps : List ℝ)
    (ml sl : ℝ) : ℝ :=
  (-(n_ids : ℝ)) * Real.log sl - ((ps.map Real.log).sum)
    - (((ps.map Real.log).map fun x => (x - ml) ^ 2).sum) / (2 * sl ^ 2)

/-- Modelled from the spec: the log-density capability required of any
object wrapped by the parameter-reduction wrapper (`erlotinib/_log_pdfs.py`
is not among the available sources).  It exposes a parameter count and an
evaluation map from a parameter vector to an extended-real log-density
value, which may be the bottom element outside the support. -/
structure LogDensity where
  n_parameters : ℕ
  evaluate : List ℝ → EReal

/-- Modelled from the spec: reconstruction of the full-length parameter
vector from a boolean mask, the stored fixed values and a reduced vector;
fixed positions (mask entry `true`) take the stored constants in order and
free positions take the reduced-vector entries in order. -/
def reconstruct : List Bool → List ℝ → List ℝ → List ℝ
  | [], _, _ => []
  | true :: m, fv :: fvs, v => fv :: reconstruct m fvs v
  | true :: m, [], v => reconstruct m [] v
  | false :: m, fvs, x :: v => x :: reconstruct m fvs v
  | false :: m, fvs, [] => reconstruct m fvs []

/-- Entries of a list standing at the positions marked `true` by a mask, in
order. -/
def maskedEntries (m : List Bool) (l : List ℝ) : List ℝ :=
  ((m.zip l).filter fun p => p.1).map fun p => p.2

/-- Entries of a list standing at the positions marked `false` by a mask,
in order. -/
def unmaskedEntries (m : List Bool) (l : List ℝ) : List ℝ :=
  ((m.zip l).filter fun p => !p.1).map fun p => p.2

/-- Modelled from the spec: the state of a `ReducedLogPDF`
(`erlotinib/_log_pdfs.py` is not among the available sources): a wrapped
log-density, a boolean mask of length `wrapped.n_parameters` marking the
fixed positions, and the fixed values, one per `true` mask entry.
Immutable after construction. -/
structure ReducedLogPDF where
  wrapped : LogDensity
  mask : List Bool
  fixedValues : List ℝ

/-- Modelled from the spec: `ReducedLogPDF.n_parameters()` returns the
wrapped count minus the number of fixed parameters. -/
def ReducedLogPDF.n_parameters (r : ReducedLogPDF) : ℕ :=
  r.wrapped.n_parameters - r.mask.count true

/-- Modelled from the spec: `ReducedLogPDF.__call__(reduced_params)` checks
that the reduced vector has length `n_parameters() `, reconstructs the
full-length vector and delegates to the wrapped log-density. -/
def ReducedLogPDF.evaluate (r : ReducedLogPDF) (reduced_params : List ℝ) :
    Except PyError EReal :=
  if reduced_params.length ≠ r.n_parameters then
    .error (.valueError "Wrong number of parameters.")
  else
    .ok (r.wrapped.evaluate (reconstruct r.mask r.fixedValues reduced_params))

/-- Modelled from the spec: the mechanistic-model capability consumed by
the predictive-sampling pipeline (`erlotinib/_predictive_models.py` is not
among the available sources): a parameter count, the declared output names,
and a deterministic simulator mapping parameters and a time grid to one
trajectory per output. -/
structure MechanisticModel where
  n_parameters : ℕ
  output_names : List String
  simulate : List ℝ → List ℝ → List (List ℝ)

/-- Modelled from the spec: the error-model capability: a parameter count
and a map `(trajectory, error_parameters, n_samples, seed)` to an array of
noisy realisations indexed time-major then sample-minor.  The draw is a
pure function of the seed, reflecting the requirement that randomness be
fully determined by the supplied seed. -/
structure ErrorModel where
  n_parameters : ℕ
  sample : List ℝ → List ℝ → ℕ → ℕ → List (List ℝ)

instance : Inhabited ErrorModel :=
  ⟨⟨0, fun _ _ _ _ => []⟩⟩

/-- Modelled from the spec: a `PredictiveModel` owns one mechanistic-model
handle and one error model per declared output. -/
structure PredictiveModel where
  mechanistic_model : MechanisticModel
  error_models : List ErrorModel

/-- Modelled from the spec: `PredictiveModel.n_parameters()` counts the
mechanistic parameters plus the concatenated error-model parameters. -/
def PredictiveModel.n_parameters (m : PredictiveModel) : ℕ :=
  m.mechanistic_model.n_parameters
    + (m.error_models.map fun em => em.n_parameters).sum

/-- Modelled from the spec: splitting of the non-mechanistic suffix of the
parameter vector into contiguous per-output error-model blocks, in output
order. -/
def splitBlocks : List ErrorModel → List ℝ → List (List ℝ)
  | [], _ => []
  | em :: rest, qs =>
      qs.take em.n_parameters :: splitBlocks rest (qs.drop em.n_parameters)

/-- One row of the assembled sample table, holding the `ID`, `Biomarker`,
`Time` and `Sample` column entries. -/
structure SampleRow where
  id : ℕ
  biomarker : String
  time : ℝ
  sample : ℝ

/-- Modelled from the spec: the rows contributed by one output to the
sample table: one row per time point and per virtual individual, with `ID`
enumerating the individuals `1..n_samples`, `Biomarker` the output name,
`Time` the grid entry and `Sample` the corresponding noisy realisation. -/
def outputRows (nm : String) (ts : List ℝ) (noisy : List (List ℝ))
    (n_samples : ℕ) : List SampleRow :=
  ((List.range ts.length).map fun t =>
    (List.range n_samples).map fun i =>
      { id := i + 1
        biomarker := nm
        time := ts.getD t 0
        sample := (noisy.getD t []).getD i 0 : SampleRow }).flatten

/-- Modelled from the spec: `PredictiveModel.sample(parameters, times,
n_samples, seed)` as a table of rows: validate the parameter count, split
the vector into mechanistic and per-output error-model blocks, run the
deterministic simulator once, let each error model draw `n_samples` noisy
realisations per time point from the shared seed, and assemble one row per
output, time and sample. -/
def PredictiveModel.sampleTable (m : PredictiveModel)
    (parameters times : List ℝ) (n_samples : ℕ) (seed : ℕ) :
    Except PyError (List SampleRow) :=
  if parameters.length ≠ m.n_parameters then
    .error (.valueError
      "The length of parameters does not match n_parameters.")
  else
    let mechParams := parameters.take m.mechanistic_model.n_parameters
    let blocks := splitBlocks m.error_models
      (parameters.drop m.mechanistic_model.n_parameters)
    let paths := m.mechanistic_model.simulate mechParams times
    .ok (((List.range m.error_models.length).map fun o =>
      outputRows (m.mechanistic_model.output_names.getD o "") times
        ((m.error_models.getD o default).sample (paths.getD o [])
          (blocks.getD o []) n_samples seed)
        n_samples).flatten)

/-- The seed-independent metadata columns of a table row: its `ID`,
`Biomarker` and `Time` entries. -/
def SampleRow.meta (r : SampleRow) : ℕ × String × ℝ :=
  (r.id, r.biomarker, r.time)

/-- Projection of the three parameter-count attributes of a population
model state, used to express that no operation changes them. -/
def pCounts (s : PopulationModel) : ℕ × ℕ × ℕ :=
  (s.n_parameters, s.n_bottom_parameters, s.n_top_parameters)

theorem getD_append_self_length (l l2 : List α) (d : α) :
    (l ++ l2).getD l.length d = l2.getD 0 d := by
  rw [List.getD_append_right l l2 d l.length le_rfl, Nat.sub_self]

theorem getD_append_succ_length (l l2 : List α) (d : α) :
    (l ++ l2).getD (l.length + 1) d = l2.getD 1 d := by
  rw [List.getD_append_right l l2 d (l.length + 1) (Nat.le_succ _)]
  congr 1
  omega

theorem broadcast_to_of_length_one (xs : List ℝ) (k : ℕ)
    (h : xs.length = 1) :
    broadcast_to xs k = .ok (List.replicate k (xs.headD 0)) := by
  unfold broadcast_to
  by_cases hk : xs.length = k
  · rw [if_pos hk]
    match xs, h with
    | [a], _ =>
      simp at hk
      subst hk
      rfl
  · rw [if_neg hk, if_pos h]

/-- Claim C5: the log-likelihood score of a heterogeneous model and of a
pooled model is `0` for every input parameter sequence, of any length and
with any values, and the call never raises. -/
theorem C5_heterogeneous_pooled_call_zero (s t : PopulationModel)
    (parameters other_parameters : List ℝ) :
    HeterogeneousModel.call s parameters = 0 ∧
    PooledModel.call t other_parameters = 0 :=
  ⟨rfl, rfl⟩

/-- Claim C3: for a pooled model, sampling with `n` omitted returns the
single top-level value unduplicated, and sampling with `n = k` for positive
`k` returns exactly `k` values, all equal to the top-level value. -/
theorem C3_pooled_sample_broadcast (n_ids : ℕ) (v : ℝ) (k : ℕ)
    (hk : 0 < k) :
    PooledModel.sample (PooledModel.init n_ids) [v] none = .ok [v] ∧
    PooledModel.sample (PooledModel.init n_ids) [v] (some k)
      = .ok (List.replicate k v) ∧
    (List.replicate k v).length = k ∧
    ∀ x ∈ List.replicate k v, x = v := by
  refine ⟨rfl, ?_, List.length_replicate k v, fun x hx => List.eq_of_mem_replicate hx⟩
  show broadcast_to [v] k = .ok (List.replicate k v)
  exact broadcast_to_of_length_one [v] k rfl

/-- Witness for claim C3 at `n_ids = 3`, `v = 5`, `k = 2`. -/
theorem C3_pooled_sample_broadcast_witness :
    0 < 2 ∧
    PooledModel.sample (PooledModel.init 3) [(5 : ℝ)] (some 2)
      = .ok (List.replicate 2 (5 : ℝ)) :=
  ⟨by decide, (C3_pooled_sample_broadcast 3 5 2 (by decide)).2.1⟩

/-- Claim C4: evaluating `LogNormalModel.sample` at a valid two-entry
top-parameter vector shows that the method, as written in the source,
validates the length and then returns Python `None` instead of an array of
log-normal samples. -/
theorem C4_lognormal_sample_returns_none :
    LogNormalModel.sample (LogNormalModel.init 3) [1, 1] none = .ok none :=
  rfl

/-- Claim C8 (amended): calling `sample` on a heterogeneous model raises
`NotImplementedError` for every input, a kind distinct from the
`ValueError` used for invalid arguments; `set_top_parameter_names` raises
unconditionally for every names argument, but it raises a `ValueError`,
the same kind as invalid-argument errors. -/
theorem C8_heterogeneous_unsupported_ops (n_ids : ℕ)
    (top_parameters : List ℝ) (n : Option ℕ) (names : List String) :
    HeterogeneousModel.sample (HeterogeneousModel.init n_ids)
        top_parameters n = .error .notImplementedError ∧
    PyError.isValueError .notImplementedError = false ∧
    (HeterogeneousModel.set_top_parameter_names
        (HeterogeneousModel.init n_ids) names).2
      = some (.valueError
          "A heterogeneous population model has no top-level parameters.") ∧
    Option.map PyError.isValueError
        (HeterogeneousModel.set_top_parameter_names
          (HeterogeneousModel.init n_ids) names).2
      = some true :=
  ⟨rfl, rfl, rfl, rfl⟩

/-- Counterexample for claim C8 as stated: at the concrete input
`names = ["n"]`, the error raised by
`HeterogeneousModel.set_top_parameter_names` is a `ValueError`, the very
kind used for invalid-argument failures such as the `set_ids` length
mismatch shown alongside, so it is not a distinct invalid-operation
kind. -/
theorem C8_counterexample_same_error_kind :
    Option.map PyError.isValueError
        (HeterogeneousModel.set_top_parameter_names
          (HeterogeneousModel.init 2) ["n"]).2 = some true ∧
    Option.map PyError.isValueError
        (PopulationModel.set_ids (HeterogeneousModel.init 2)
          ([3] : List ℕ) toString).2 = some true :=
  ⟨rfl, rfl⟩

/-- Claim C9: for every variant and every `n_ids`, the constructed state
satisfies `n_parameters = n_bottom_parameters + n_top_parameters` with the
variant-specific counts, and no operation (`set_ids`,
`set_bottom_parameter_name`, or any variant of
`set_top_parameter_names`, successful or not) changes the three counts. -/
theorem C9_parameter_count_invariant (n_ids : ℕ) (s : PopulationModel)
    (α : Type) (ids : List α) (toStr : α → String) (name : String)
    (names : List String) :
    ((HeterogeneousModel.init n_ids).n_parameters
        = (HeterogeneousModel.init n_ids).n_bottom_parameters
          + (HeterogeneousModel.init n_ids).n_top_parameters ∧
      (HeterogeneousModel.init n_ids).n_bottom_parameters = n_ids ∧
      (HeterogeneousModel.init n_ids).n_top_parameters = 0) ∧
    ((PooledModel.init n_ids).n_parameters
        = (PooledModel.init n_ids).n_bottom_parameters
          + (PooledModel.init n_ids).n_top_parameters ∧
      (PooledModel.init n_ids).n_bottom_parameters = 0 ∧
      (PooledModel.init n_ids).n_top_parameters = 1) ∧
    ((LogNormalModel.init n_ids).n_parameters
        = (LogNormalModel.init n_ids).n_bottom_parameters
          + (LogNormalModel.init n_ids).n_top_parameters ∧
      (LogNormalModel.init n_ids).n_bottom_parameters = n_ids ∧
      (LogNormalModel.init n_ids).n_top_parameters = 2) ∧
    pCounts (PopulationModel.set_ids s ids toStr).1 = pCounts s ∧
    pCounts (PopulationModel.set_bottom_parameter_name s name) = pCounts s ∧
    pCounts (HeterogeneousModel.set_top_parameter_names s names).1
      = pCounts s ∧
    pCounts (LogNormalModel.set_top_parameter_names s names).1 = pCounts s ∧
    pCounts (PooledModel.set_top_parameter_names s names).1 = pCounts s := by
  refine ⟨⟨rfl, rfl, rfl⟩, ⟨rfl, rfl, rfl⟩, ⟨rfl, rfl, rfl⟩, ?_, rfl, rfl,
    ?_, ?_⟩
  · unfold PopulationModel.set_ids
    split <;> rfl
  · unfold LogNormalModel.set_top_parameter_names
    split <;> rfl
  · unfold PooledModel.set_top_parameter_names
    split <;> rfl

/-- Claim C10: whenever `set_ids` or a `set_top_parameter_names` variant
raises, the resulting state is exactly the input state, so in particular
`get_ids` and `get_top_parameter_names` are unchanged: validation happens
before any mutation. -/
theorem C10_setters_atomic_on_error (s : PopulationModel) (α : Type)
    (ids : List α) (toStr : α → String) (names other_names : List String) :
    ((PopulationModel.set_ids s ids toStr).2.isSome = true →
      (PopulationModel.set_ids s ids toStr).1 = s ∧
      ((PopulationModel.set_ids s ids toStr).1).get_ids = s.get_ids ∧
      ((PopulationModel.set_ids s ids toStr).1).get_top_parameter_names
        = s.get_top_parameter_names) ∧
    ((LogNormalModel.set_top_parameter_names s names).2.isSome = true →
      (LogNormalModel.set_top_parameter_names s names).1 = s ∧
      ((LogNormalModel.set_top_parameter_names s names).1).get_ids
        = s.get_ids ∧
      ((LogNormalModel.set_top_parameter_names s names).1).get_top_parameter_names
        = s.get_top_parameter_names) ∧
    ((PooledModel.set_top_parameter_names s other_names).2.isSome = true →
      (PooledModel.set_top_parameter_names s other_names).1 = s ∧
      ((PooledModel.set_top_parameter_names s other_names).1).get_ids
        = s.get_ids ∧
      ((PooledModel.set_top_parameter_names s other_names).1).get_top_parameter_names
        = s.get_top_parameter_names) := by
  refine ⟨?_, ?_, ?_⟩
  · by_cases hc : ids.length ≠ s.n_ids
    · intro _
      simp [PopulationModel.set_ids, hc]
    · intro h
      simp [PopulationModel.set_ids, hc] at h
  · by_cases hc : names.length ≠ s.n_top_parameters
    · intro _
      simp [LogNormalModel.set_top_parameter_names, hc]
    · intro h
      simp [LogNormalModel.set_top_parameter_names, hc] at h
  · by_cases hc : other_names.length ≠ s.n_top_parameters
    · intro _
      simp [PooledModel.set_top_parameter_names, hc]
    · intro h
      simp [PooledModel.set_top_parameter_names, hc] at h

/-- Witness for claim C10: a failing `set_ids` call on a log-normal model
with two individuals, given a single identifier, leaves the state
unchanged. -/
theorem C10_setters_atomic_on_error_witness :
    (PopulationModel.set_ids (LogNormalModel.init 2) [1]
        toString).2.isSome = true ∧
    (PopulationModel.set_ids (LogNormalModel.init 2) [1] toString).1
      = LogNormalModel.init 2 :=
  ⟨rfl, ((C10_setters_atomic_on_error (LogNormalModel.init 2) ℕ [1]
    toString [] []).1 rfl).1⟩

theorem pooled_sample_ok_of_length_one (s : PopulationModel)
    (tp : List ℝ) (n : Option ℕ) (h : tp.length = 1)
    (hs : s.n_top_parameters = 1) :
    (PooledModel.sample s tp n).isError = false := by
  unfold PooledModel.sample
  rw [if_neg (by rw [h, hs]; exact fun hne => hne rfl)]
  match n with
  | none => rfl
  | some k =>
    show (broadcast_to tp k).isError = false
    rw [broadcast_to_of_length_one tp k h]
    rfl

/-- Claim C7: `sample` on pooled and log-normal models raises an
invalid-argument error exactly when the top-parameter vector has the wrong
length; `set_ids` raises exactly when the identifier count differs from
`n_ids` and on success stores the stringified identifiers; and
`set_top_parameter_names` on pooled and log-normal models raises exactly
when the name count differs from `n_top_parameters`. -/
theorem C7_length_validation (n_ids : ℕ) (tp tq : List ℝ)
    (n n2 : Option ℕ) (s : PopulationModel) (α : Type) (ids : List α)
    (toStr : α → String) (names other_names : List String) :
    ((PooledModel.sample (PooledModel.init n_ids) tp n).isError = true
      ↔ tp.length ≠ 1) ∧
    ((LogNormalModel.sample (LogNormalModel.init n_ids) tq n2).isError
        = true ↔ tq.length ≠ 2) ∧
    ((PopulationModel.set_ids s ids toStr).2.isSome = true
      ↔ ids.length ≠ s.n_ids) ∧
    (ids.length = s.n_ids →
      ((PopulationModel.set_ids s ids toStr).1).ids
        = some (ids.map toStr)) ∧
    ((PooledModel.set_top_parameter_names (PooledModel.init n_ids)
        names).2.isSome = true ↔ names.length ≠ 1) ∧
    ((LogNormalModel.set_top_parameter_names (LogNormalModel.init n_ids)
        other_names).2.isSome = true ↔ other_names.length ≠ 2) := by
  refine ⟨?_, ?_, ?_, ?_, ?_, ?_⟩
  · constructor
    · intro h hlen
      rw [pooled_sample_ok_of_length_one (PooledModel.init n_ids) tp n
        hlen rfl] at h
      exact Bool.false_ne_true h
    · intro hlen
      simp [PooledModel.sample, PooledModel.init, hlen, Except.isError]
  · constructor
    · intro h hlen
      unfold LogNormalModel.sample at h
      rw [if_neg (by rw [hlen]; exact fun hne => hne rfl)] at h
      exact Bool.false_ne_true h
    · intro hlen
      simp [LogNormalModel.sample, LogNormalModel.init, hlen, Except.isError]
  · constructor
    · intro h hlen
      unfold PopulationModel.set_ids at h
      rw [if_neg (fun hne => hne hlen)] at h
      exact Bool.false_ne_true h
    · intro hlen
      unfold PopulationModel.set_ids
      rw [if_pos hlen]
      rfl
  · intro hlen
    unfold PopulationModel.set_ids
    rw [if_neg (fun hne => hne hlen)]
  · constructor
    · intro h hlen
      unfold PooledModel.set_top_parameter_names at h
      rw [if_neg (by rw [hlen]; exact fun hne => hne rfl)] at h
      exact Bool.false_ne_true h
    · intro hlen
      simp [PooledModel.set_top_parameter_names, PooledModel.init, hlen]
  · constructor
    · intro h hlen
      unfold LogNormalModel.set_top_parameter_names at h
      rw [if_neg (by rw [hlen]; exact fun hne => hne rfl)] at h
      exact Bool.false_ne_true h
    · intro hlen
      simp [LogNormalModel.set_top_parameter_names, LogNormalModel.init, hlen]

/-- Witness for claim C7: a matching-length `set_ids` call on a log-normal
model with two individuals stores the two stringified identifiers. -/
theorem C7_length_validation_witness :
    (["a", "b"] : List String).length = (LogNormalModel.init 2).n_ids ∧
    ((PopulationModel.set_ids (LogNormalModel.init 2) ["a", "b"]
        (fun x => x)).1).ids
      = some ((["a", "b"] : List String).map fun x => x) :=
  ⟨rfl, (C7_length_validation 2 [] [] none none (LogNormalModel.init 2)
    String ["a", "b"] (fun x => x) [] []).2.2.2.1 rfl⟩

/-- Claim C1: for a parameter vector of length `n_ids + 2` whose first
`n_ids` entries are the bottom realisations and whose last two entries are
`mean_log` and `std_log`, the log-normal model call returns negative
infinity whenever `mean_log <= 0` or `std_log <= 0`, regardless of the
bottom realisations, and otherwise returns exactly the closed-form
unnormalised score `specLogNormalScore`. -/
theorem C1_lognormal_call_spec (n_ids : ℕ) (ps : List ℝ) (ml sl : ℝ)
    (h : ps.length = n_ids) :
    LogNormalModel.call (LogNormalModel.init n_ids) (ps ++ [ml, sl])
      = if ml ≤ 0 ∨ sl ≤ 0 then ⊥
        else ((specLogNormalScore n_ids ps ml sl : ℝ) : EReal) := by
  subst h
  have hm : (ps ++ [ml, sl]).getD ps.length 0 = ml := by
    rw [getD_append_self_length]
    rfl
  have hs : (ps ++ [ml, sl]).getD (ps.length + 1) 0 = sl := by
    rw [getD_append_succ_length]
    rfl
  have ht : (ps ++ [ml, sl]).take ps.length = ps := List.take_left ps [ml, sl]
  unfold LogNormalModel.call specLogNormalScore
  simp only [LogNormalModel.init, ht, hm, hs]

/-- Witness for claim C1 at `n_ids = 1`, bottom realisation `[1]`,
`mean_log = std_log = 1`. -/
theorem C1_lognormal_call_spec_witness :
    ([(1 : ℝ)]).length = 1 ∧
    LogNormalModel.call (LogNormalModel.init 1) ([(1 : ℝ)] ++ [1, 1])
      = if (1 : ℝ) ≤ 0 ∨ (1 : ℝ) ≤ 0 then ⊥
        else ((specLogNormalScore 1 [(1 : ℝ)] 1 1 : ℝ) : EReal) :=
  ⟨rfl, C1_lognormal_call_spec 1 [1] 1 1 rfl⟩

theorem maskedEntries_cons_true (m : List Bool) (x : ℝ) (l : List ℝ) :
    maskedEntries (true :: m) (x :: l) = x :: maskedEntries m l := by
  simp [maskedEntries]

theorem maskedEntries_cons_false (m : List Bool) (x : ℝ) (l : List ℝ) :
    maskedEntries (false :: m) (x :: l) = maskedEntries m l := by
  simp [maskedEntries]

theorem unmaskedEntries_cons_true (m : List Bool) (x : ℝ) (l : List ℝ) :
    unmaskedEntries (true :: m) (x :: l) = unmaskedEntries m l := by
  simp [unmaskedEntries]

theorem unmaskedEntries_cons_false (m : List Bool) (x : ℝ) (l : List ℝ) :
    unmaskedEntries (false :: m) (x :: l) = x :: unmaskedEntries m l := by
  simp [unmaskedEntries]

theorem reconstruct_spec (m : List Bool) :
    ∀ (vals v : List ℝ), vals.length = m.count true →
      v.length = m.count false →
      (reconstruct m vals v).length = m.length ∧
      maskedEntries m (reconstruct m vals v) = vals ∧
      unmaskedEntries m (reconstruct m vals v) = v := by
  induction m with
  | nil =>
    intro vals v hvals hv
    simp only [List.count_nil, List.length_eq_zero] at hvals hv
    subst hvals
    subst hv
    exact ⟨rfl, rfl, rfl⟩
  | cons b m ih =>
    intro vals v hvals hv
    cases b
    · cases v with
      | nil =>
        simp [List.count_cons] at hv
      | cons x xs =>
        have hvals2 : vals.length = m.count true := by
          simpa [List.count_cons] using hvals
        have hv2 : xs.length = m.count false := by
          have := hv
          simp [List.count_cons] at this
          omega
        obtain ⟨hlen, hmask, hunmask⟩ := ih vals xs hvals2 hv2
        refine ⟨?_, ?_, ?_⟩
        · show (x :: reconstruct m vals xs).length = m.length + 1
          simp [hlen]
        · show maskedEntries (false :: m) (x :: reconstruct m vals xs) = vals
          rw [maskedEntries_cons_false, hmask]
        · show unmaskedEntries (false :: m) (x :: reconstruct m vals xs)
            = x :: xs
          rw [unmaskedEntries_cons_false, hunmask]
    · cases vals with
      | nil =>
        simp [List.count_cons] at hvals
      | cons fv fvs =>
        have hvals2 : fvs.length = m.count true := by
          have := hvals
          simp [List.count_cons] at this
          omega
        have hv2 : v.length = m.count false := by
          simpa [List.count_cons] using hv
        obtain ⟨hlen, hmask, hunmask⟩ := ih fvs v hvals2 hv2
        refine ⟨?_, ?_, ?_⟩
        · show (fv :: reconstruct m fvs v).length = m.length + 1
          simp [hlen]
        · show maskedEntries (true :: m) (fv :: reconstruct m fvs v)
            = fv :: fvs
          rw [maskedEntries_cons_true, hmask]
        · show unmaskedEntries (true :: m) (fv :: reconstruct m fvs v) = v
          rw [unmaskedEntries_cons_true, hunmask]

theorem count_true_add_count_false (m : List Bool) :
    m.count true + m.count false = m.length := by
  induction m with
  | nil => rfl
  | cons b m ih =>
    cases b <;> simp [List.count_cons] <;> omega

/-- Claim C2: for a wrapped log-density with `P` parameters, a boolean
mask of length `P` and fixed values matching the `true` entries, evaluating
the reduced pdf at a free vector of length `P - sum(mask)` delegates to the
wrapped density at the full reconstructed vector, which has length `P`,
carries the fixed values at the masked positions in order and the free
vector at the unmasked positions in order; and the reduced parameter count
is `P - sum(mask)`. -/
theorem C2_reduced_logpdf_roundtrip (w : LogDensity) (m : List Bool)
    (vals v : List ℝ) (hm : m.length = w.n_parameters)
    (hvals : vals.length = m.count true)
    (hv : v.length = w.n_parameters - m.count true) :
    (ReducedLogPDF.mk w m vals).evaluate v
        = .ok (w.evaluate (reconstruct m vals v)) ∧
    (ReducedLogPDF.mk w m vals).n_parameters
        = w.n_parameters - m.count true ∧
    (reconstruct m vals v).length = m.length ∧
    maskedEntries m (reconstruct m vals v) = vals ∧
    unmaskedEntries m (reconstruct m vals v) = v := by
  have hcount := count_true_add_count_false m
  have hvf : v.length = m.count false := by omega
  obtain ⟨hlen, hmask, hunmask⟩ := reconstruct_spec m vals v hvals hvf
  refine ⟨?_, rfl, hlen, hmask, hunmask⟩
  unfold ReducedLogPDF.evaluate
  rw [if_neg (show ¬(v.length ≠ (ReducedLogPDF.mk w m vals).n_parameters)
    from fun hne => hne hv)]

/-- Witness for claim C2 with a three-parameter wrapped density, mask
`[true, false, true]`, fixed values `[5, 6]` and free vector `[7]`. -/
theorem C2_reduced_logpdf_roundtrip_witness :
    ([true, false, true].length = (⟨3, fun _ => 0⟩ : LogDensity).n_parameters ∧
      ([(5 : ℝ), 6]).length = [true, false, true].count true ∧
      ([(7 : ℝ)]).length
        = (⟨3, fun _ => 0⟩ : LogDensity).n_parameters
          - [true, false, true].count true) ∧
    (ReducedLogPDF.mk ⟨3, fun _ => 0⟩ [true, false, true] [5, 6]).evaluate
        [7]
      = .ok ((⟨3, fun _ => 0⟩ : LogDensity).evaluate
          (reconstruct [true, false, true] [5, 6] [7])) :=
  ⟨⟨rfl, rfl, rfl⟩,
    (C2_reduced_logpdf_roundtrip ⟨3, fun _ => 0⟩ [true, false, true]
      [5, 6] [7] rfl rfl rfl).1⟩

theorem map_meta_outputRows (nm : String) (ts : List ℝ)
    (noisy : List (List ℝ)) (n_samples : ℕ) :
    (outputRows nm ts noisy n_samples).map SampleRow.meta
      = ((List.range ts.length).map fun t =>
          (List.range n_samples).map fun i =>
            ((i + 1 : ℕ), nm, ts.getD t 0)).flatten := by
  unfold outputRows
  rw [List.map_flatten, List.map_map]
  refine congrArg List.flatten (List.map_congr_left fun t ht => ?_)
  rw [Function.comp_apply, List.map_map]
  rfl

/-- Claim C6: the predictive-sampling pipeline is deterministic given a
seed — two calls with identical arguments and the same seed produce
identical tables — and two calls differing only in the seed produce tables
whose `ID`, `Biomarker` and `Time` columns coincide, the seed reaching only
the `Sample` column. -/
theorem C6_sample_seed_determinism (m : PredictiveModel)
    (parameters times : List ℝ) (n_samples : ℕ) (seed other_seed : ℕ) :
    (seed = other_seed →
      m.sampleTable parameters times n_samples seed
        = m.sampleTable parameters times n_samples other_seed) ∧
    Except.map (List.map SampleRow.meta)
        (m.sampleTable parameters times n_samples seed)
      = Except.map (List.map SampleRow.meta)
        (m.sampleTable parameters times n_samples other_seed) := by
  constructor
  · intro h
    rw [h]
  · unfold PredictiveModel.sampleTable
    by_cases hc : parameters.length ≠ m.n_parameters
    · rw [if_pos hc, if_pos hc]
    · rw [if_neg hc, if_neg hc]
      show Except.ok (List.map SampleRow.meta _) = Except.ok (List.map SampleRow.meta _)
      congr 1
      rw [List.map_flatten, List.map_flatten, List.map_map, List.map_map]
      refine congrArg List.flatten (List.map_congr_left fun o ho => ?_)
      rw [Function.comp_apply, Function.comp_apply, map_meta_outputRows,
        map_meta_outputRows]

/-- Witness for claim C6 on a concrete predictive model with no outputs,
at equal seeds. -/
theorem C6_sample_seed_determinism_witness :
    (0 : ℕ) = 0 ∧
    PredictiveModel.sampleTable ⟨⟨0, [], fun _ _ => []⟩, []⟩ [] [] 1 0
      = PredictiveModel.sampleTable ⟨⟨0, [], fun _ _ => []⟩, []⟩ [] [] 1 0 :=
  ⟨rfl, (C6_sample_seed_determinism ⟨⟨0, [], fun _ _ => []⟩, []⟩ [] [] 1
    0 0).1 rfl⟩
